import Mathlib

/-!
Verification development for the aistudy quiz application.

The development shallowly embeds the AI-backed quiz generation pipeline
(src/services/geminiService.ts) and the quiz session controller
(src/App.tsx) and proves the specified properties about them.

Modelling conventions:
* Promise-returning operations are modelled as pure functions; the
  provider operation passed to the retry wrapper is modelled as a map
  from the invocation index (how many calls happened before) to that
  invocation's outcome.
* A thrown JavaScript `Error` is modelled as an `Except.error` carrying
  the error's message string.
* `setTimeout` delays are not executed; the wrapper records the sequence
  of requested delays (in milliseconds) in its trace.
* The provider response is identified with the JSON value its text
  parses to (`response.text.trim()` + `JSON.parse` happen at the provider
  boundary; the claims under study quantify over the parsed value).
-/

/-- Model of a parsed JSON value (the result of `JSON.parse`). -/
inductive Json where
  | null
  | bool (b : Bool)
  | num (n : Int)
  | str (s : String)
  | arr (elements : List Json)
  | obj (fields : List (String × Json))

/-- Quiz configuration, from src/types.ts (`QuizConfig`).  The TS union
string types `Exam`, `Subject` and `DifficultyLevel` are modelled as
strings. -/
structure QuizConfig where
  exam : String
  subject : String
  topic : String
  level : String
  mergeTopic : Option String

/-- Resource link attached to a question, from src/types.ts. -/
structure ResourceLink where
  title : String
  url : String

/-- Question record, from src/types.ts (`Question`). -/
structure Question where
  question : String
  options : List String
  correctAnswerIndex : Nat
  explanation : String
  sourceHint : Option String
  resourceLink : Option ResourceLink

/-- Incorrect answer record, from src/types.ts (`IncorrectAnswer`):
a `Question` extended with the option index the user chose. -/
structure IncorrectAnswer extends Question where
  userAnswerIndex : Nat

/-- Quiz lifecycle state, from src/types.ts (`QuizState`). -/
inductive QuizState where
  | idle
  | loading
  | active
  | finished
deriving DecidableEq

/-- JavaScript `message.toLowerCase()`, modelled characterwise.  The
substrings the source classifies against are ASCII, for which
`Char.toLower` agrees with JavaScript case mapping. -/
def lowercase (s : String) : String :=
  ⟨s.data.map Char.toLower⟩

/-- JavaScript `hay.includes(needle)`: substring containment test. -/
def containsSubstr (hay needle : String) : Bool :=
  decide (needle.data <:+: hay.data)

/-- Transient-error classification from `withRetry`
(src/services/geminiService.ts): the lower-cased message is matched
against a fixed set of substrings.  The argument is the already
lower-cased error message, as in the source. -/
def isTransientError (errorMessage : String) : Bool :=
  containsSubstr errorMessage "500" ||
  containsSubstr errorMessage "503" ||
  containsSubstr errorMessage "rpc failed" ||
  containsSubstr errorMessage "network error" ||
  containsSubstr errorMessage "xhr error"

/-- Fixed user-facing message raised when a transient failure exhausts
the retry budget. -/
def unavailableMessage : String :=
  "The AI service is currently unavailable. Please try again in a few moments."

/-- Wrapped message raised for a non-transient `Error` failure; it
carries the original error's message text. -/
def wrapUnexpected (message : String) : String :=
  "An unexpected error occurred while communicating with the AI service. Details: " ++ message

/-- Trace of one `withRetry` run: the final outcome, the number of times
the wrapped operation was invoked, and the backoff delays (ms) requested
between consecutive invocations. -/
structure RetryTrace (α : Type) where
  result : Except String α
  calls : Nat
  delays : List Nat

/-- Core loop of `withRetry` (src/services/geminiService.ts), started at
a given value of the `attempt` counter.  `apiCall i` is the outcome of
the `(i+1)`-th invocation of the wrapped operation (every earlier
invocation failed, so the invocation index equals the current value of
`attempt`). -/
def withRetryFrom {α : Type} (apiCall : Nat → Except String α) (maxRetries : Nat)
    (attempt : Nat) : RetryTrace α :=
  match apiCall attempt with
  | .ok v => { result := .ok v, calls := 1, delays := [] }
  | .error e =>
    let attempt1 := attempt + 1
    let errorMessage := lowercase e
    if h : isTransientError errorMessage = true ∧ attempt1 < maxRetries then
      let delay := 1000 * 2 ^ (attempt1 - 1)
      let rest := withRetryFrom apiCall maxRetries attempt1
      { result := rest.result, calls := rest.calls + 1, delays := delay :: rest.delays }
    else
      { result := .error (if isTransientError errorMessage then unavailableMessage
                          else wrapUnexpected e),
        calls := 1, delays := [] }
termination_by maxRetries - attempt
decreasing_by
  omega

/-- Wrapper `withRetry` (src/services/geminiService.ts); the source
default for `maxRetries` is 3. -/
def withRetry {α : Type} (apiCall : Nat → Except String α) (maxRetries : Nat) : RetryTrace α :=
  withRetryFrom apiCall maxRetries 0

/-! Prompt builder (`generateQuizPrompt`, src/services/geminiService.ts).
The source builds the prompt by successive `prompt += ...` steps; each
step is modelled as a named segment (a skipped step contributes the
empty segment) and the builder is their concatenation in source order. -/

/-- Opening of the quiz prompt: the initial value of `prompt`. -/
def quizPromptBase (config : QuizConfig) : String :=
  "Generate a 20-question multiple-choice quiz for a student preparing for the " ++
    config.exam ++ " exam. The subject is " ++ config.subject ++ "."

/-- Topic sentence: the `config.topic === 'Foundational Concepts'`
conditional. -/
def quizPromptTopicSegment (config : QuizConfig) : String :=
  if config.topic = "Foundational Concepts" then
    " The quiz should cover a mix of the most important, foundational, and frequently tested concepts from the entire " ++
      config.subject ++ " syllabus for " ++ config.exam ++ "."
  else
    " The primary topic is \"" ++ config.topic ++ "\"."

/-- Difficulty sentence. -/
def quizPromptLevelSegment (config : QuizConfig) : String :=
  " The difficulty should be appropriate for " ++ config.level ++ "."

/-- Secondary-topic sentence, guarded by `if (config.mergeTopic)`; the
JavaScript truthiness test skips both a missing and an empty string. -/
def quizPromptMergeSegment (config : QuizConfig) : String :=
  match config.mergeTopic with
  | some mergeTopic =>
    if mergeTopic = "" then ""
    else
      " Please also incorporate concepts from the secondary topic \"" ++ mergeTopic ++
        "\" to create some multi-concept questions that test the integration of both topics."
  | none => ""

/-- Fixed instruction block appended to every quiz prompt. -/
def quizPromptInstructionBlock : String :=
  "\n- For 'Level 1: Advanced', the questions should be highly challenging, multi-concept, and analytical, similar to those in the JEE Advanced paper.\n- For 'Level 2: Mains/NEET', questions should test core concepts with medium difficulty.\n- For 'Level 3: Boards', questions should be straightforward and knowledge-based.\n- IMPORTANT: For any mathematical equations or symbols, use standard LaTeX formatting. Use $...$ for inline equations (e.g., $E=mc^2$) and $$...$$ for block equations that should appear on their own line.\n- For each question, provide a 'sourceHint' string that briefly describes the core concept being tested (e.g., 'Concept: Conservation of Momentum').\n- For each question, also provide a 'resourceLink' object containing a 'title' (e.g., \"Khan Academy: Intro to Projectile Motion\") and a 'url'. The URL must point to a reputable, public, and free-to-access webpage (like a university site, Khan Academy, GeeksforGeeks, Physics Classroom, etc.) where the user can read more about the underlying concept. Do not provide links that are behind a paywall, require a login, or are from dubious sources. The URL must be a full, valid, and working link. Do not invent URLs.\n"

/-- JavaScript `Array.prototype.join(sep)`. -/
def joinStrings (sep : String) : List String → String
  | [] => ""
  | [s] => s
  | s :: rest => s ++ sep ++ joinStrings sep rest

/-- Rendering of one mistake in the retry block.  A JavaScript
out-of-range index renders as the text `undefined` in a template
literal, hence the `getD` default. -/
def mistakeLine (ans : IncorrectAnswer) : String :=
  "- Question: \"" ++ ans.question ++ "\"\n  My incorrect answer: \"" ++
    ans.options.getD ans.userAnswerIndex "undefined" ++ "\"\n  Correct answer: \"" ++
    ans.options.getD ans.correctAnswerIndex "undefined" ++ "\""

/-- Retry block, guarded by
`if (incorrectAnswers && incorrectAnswers.length > 0)`. -/
def quizPromptMistakeSegment (incorrectAnswers : Option (List IncorrectAnswer)) : String :=
  match incorrectAnswers with
  | some answers =>
    if 0 < answers.length then
      "\nI previously took a quiz on this topic and made these mistakes:\n\n" ++
        joinStrings "\n" (answers.map mistakeLine) ++
        "\n\nPlease generate a new, different quiz that specifically targets the concepts I'm struggling with based on these mistakes. The questions should be related but not identical."
    else ""
  | none => ""

/-- Quiz prompt builder (`generateQuizPrompt`). -/
def generateQuizPrompt (config : QuizConfig)
    (incorrectAnswers : Option (List IncorrectAnswer)) : String :=
  quizPromptBase config ++ quizPromptTopicSegment config ++ quizPromptLevelSegment config ++
    quizPromptMergeSegment config ++ quizPromptInstructionBlock ++
    quizPromptMistakeSegment incorrectAnswers

/-! Generation function `generateQuiz` (src/services/geminiService.ts). -/

/-- Message thrown when the parsed response fails the shape check. -/
def invalidQuizFormatMessage : String :=
  "AI returned an invalid quiz format."

/-- Outcome of one generation function run: the result together with the
total number of provider invocations made. -/
structure GenResult (α : Type) where
  result : Except String α
  calls : Nat

/-- Model of `generateQuiz`: builds the prompt, runs the provider call
through `withRetry` (source passes the default `maxRetries = 3`), then
checks `!Array.isArray(quizData) || quizData.length === 0` on the parsed
response and otherwise returns it.  The final catch block rethrows any
`Error` unchanged, which all errors of this model are. -/
def generateQuiz (apiCall : String → Nat → Except String Json) (config : QuizConfig)
    (incorrectAnswers : Option (List IncorrectAnswer)) : GenResult (List Json) :=
  let prompt := generateQuizPrompt config incorrectAnswers
  let t := withRetry (apiCall prompt) 3
  match t.result with
  | .error e => { result := .error e, calls := t.calls }
  | .ok response =>
    match response with
    | .arr quizData =>
      if quizData.length = 0 then { result := .error invalidQuizFormatMessage, calls := t.calls }
      else { result := .ok quizData, calls := t.calls }
    | _ => { result := .error invalidQuizFormatMessage, calls := t.calls }

/-! Quiz session controller (src/App.tsx). -/

/-- History entry, from src/types.ts (`QuizHistoryItem`).  The
`percentage` field is produced by `Math.round`, hence an integer. -/
structure QuizHistoryItem where
  id : Nat
  config : QuizConfig
  score : Nat
  totalQuestions : Nat
  percentage : Int
  date : Nat

/-- JavaScript `Math.round` (round half toward positive infinity),
with number arithmetic idealized as exact rational arithmetic. -/
def jsRound (x : ℚ) : ℤ :=
  ⌊x + 1 / 2⌋

/-- Loop of the score `reduce` in `handleQuizCompletion`:
`answer === questions[index].correctAnswerIndex ? acc + 1 : acc`.
A missing answer (`null`) never equals a number.  An out-of-range
`questions[index]` would throw in JavaScript; it is modelled as a
non-match and is unreachable for the equal-length inputs the claims
quantify over. -/
def quizScoreGo (questions : List Question) : Nat → List (Option Nat) → Nat → Nat
  | _, [], acc => acc
  | index, answer :: rest, acc =>
    quizScoreGo questions (index + 1) rest
      (match questions[index]? with
       | some q => if answer = some q.correctAnswerIndex then acc + 1 else acc
       | none => acc)

/-- Score computation of `handleQuizCompletion` (src/App.tsx). -/
def quizScore (questions : List Question) (answers : List (Option Nat)) : Nat :=
  quizScoreGo questions 0 answers 0

/-- Incorrect-answer list of `handleQuizCompletion` (src/App.tsx):
`questions.map((q, i) => ({...q, userAnswerIndex: answers[i]!}))` then
`.filter((_, i) => answers[i] !== null && answers[i] !== questions[i].correctAnswerIndex)`.
Since the filter predicate depends only on the index, map and filter
commute; `answers[i]` is modelled as `answers.getD i none` (the claims
quantify over equal-length inputs, where no out-of-range access
occurs). -/
def computeIncorrect (questions : List Question) (answers : List (Option Nat)) :
    List IncorrectAnswer :=
  (questions.enum.filter fun p =>
      answers.getD p.1 none ≠ none ∧
      answers.getD p.1 none ≠ some p.2.correctAnswerIndex).map
    fun p => { toQuestion := p.2, userAnswerIndex := (answers.getD p.1 none).getD 0 }

/-- Result of the `active → finished` transition performed by
`handleQuizCompletion`: the recorded answers, the incorrect-answer list,
the score, the appended history entry (absent when no config is set)
and the new lifecycle state. -/
structure CompletionOutcome where
  userAnswers : List (Option Nat)
  incorrectAnswers : List IncorrectAnswer
  score : Nat
  historyItem : Option QuizHistoryItem
  quizState : QuizState

/-- Model of `handleQuizCompletion` (src/App.tsx); `now` stands for the
`Date.now()` timestamp. -/
def handleQuizCompletion (questions : List Question) (quizConfig : Option QuizConfig)
    (now : Nat) (answers : List (Option Nat)) : CompletionOutcome :=
  let incorrect := computeIncorrect questions answers
  let score := quizScore questions answers
  let item :=
    match quizConfig with
    | some config =>
      some { id := now, config := config, score := score,
             totalQuestions := questions.length,
             percentage := jsRound ((score : ℚ) / (questions.length : ℚ) * 100),
             date := now }
    | none => none
  { userAnswers := answers, incorrectAnswers := incorrect, score := score,
    historyItem := item, quizState := .finished }

/-- Session state held by the App component (the fields `startQuiz`
touches). -/
structure AppState where
  quizConfig : Option QuizConfig
  questions : List Question
  userAnswers : List (Option Nat)
  incorrectAnswers : List IncorrectAnswer
  quizState : QuizState
  error : Option String
  showHistory : Bool
  isSubmitting : Bool

/-- Synchronous prefix of `startQuiz` (src/App.tsx), up to the `await`
of `generateQuiz`: if the in-flight guard `isSubmittingRef.current` is
set the request returns at once (no state change); otherwise the guard
is set, the config stored, the state moved to `loading`, the error
cleared and the history view closed.  The boolean records whether a
generation call was issued. -/
def startQuizBegin (s : AppState) (config : QuizConfig) : AppState × Bool :=
  if s.isSubmitting then (s, false)
  else
    ({ s with isSubmitting := true, quizConfig := some config, quizState := .loading,
              error := none, showHistory := false }, true)

/-- Continuation of `startQuiz` once the awaited `generateQuiz` call
settles: success installs the questions, resets answers and mistakes and
activates the quiz; failure records the message and returns to `idle`.
Either way the in-flight guard is cleared (the `finally` block). -/
def startQuizResolve (s : AppState) (outcome : Except String (List Question)) : AppState :=
  match outcome with
  | .ok generatedQuestions =>
    { s with questions := generatedQuestions, userAnswers := [], incorrectAnswers := [],
             quizState := .active, isSubmitting := false }
  | .error message =>
    { s with error := some message, quizState := .idle, isSubmitting := false }

/-! Spec-side definitions, rendering the specification's wording for
comparison with the code model. -/

/-- Spec-side substring containment: `needle` occurs contiguously in
`hay`. -/
def strContains (hay needle : String) : Prop :=
  ∃ before after, before ++ needle ++ after = hay

/-- Spec-side count of positions whose recorded answer equals the
corresponding question's `correctAnswerIndex`. -/
def specMatchCount : List Question → List (Option Nat) → Nat
  | q :: qs, a :: rest =>
    (if a = some q.correctAnswerIndex then 1 else 0) + specMatchCount qs rest
  | _, _ => 0

/-- Spec-side Question invariant on a parsed JSON value: an object whose
`options` field is an array of exactly 4 elements and whose
`correctAnswerIndex` field is an integer in `[0, 3]` (hence indexing
into `options`). -/
def questionInvariantHolds (j : Json) : Bool :=
  match j with
  | .obj fields =>
    (match fields.lookup "options" with
     | some (.arr opts) => opts.length = 4
     | _ => false) &&
    (match fields.lookup "correctAnswerIndex" with
     | some (.num idx) => decide (0 ≤ idx ∧ idx ≤ 3)
     | _ => false)
  | _ => false

/-! Concrete values used to instantiate the theorems. -/

/-- Concrete quiz configuration. -/
def sampleConfig : QuizConfig :=
  { exam := "JEE", subject := "Physics", topic := "Kinematics",
    level := "Level 3: Boards", mergeTopic := none }

/-- Concrete question. -/
def sampleQuestion : Question :=
  { question := "What is the SI unit of force?",
    options := ["joule", "newton", "watt", "pascal"],
    correctAnswerIndex := 1, explanation := "Force is measured in newtons.",
    sourceHint := none, resourceLink := none }

/-- Concrete mistake record: the user chose option 0, the correct option
is option 1. -/
def sampleMistake : IncorrectAnswer :=
  { toQuestion := sampleQuestion, userAnswerIndex := 0 }

/-- Parsed provider response element that passes the `generateQuiz`
shape check while violating the Question invariant: it has only two
options and an out-of-range `correctAnswerIndex`. -/
def badQuestionJson : Json :=
  .obj [("question", .str "q"), ("options", .arr [.str "A", .str "B"]),
        ("correctAnswerIndex", .num 7), ("explanation", .str "e")]

/-- Provider whose response always parses to a singleton array holding
`badQuestionJson`. -/
def badProvider : String → Nat → Except String Json :=
  fun _ _ => .ok (.arr [badQuestionJson])

/-- Provider whose response always parses to an empty array. -/
def emptyArrProvider : String → Nat → Except String Json :=
  fun _ _ => .ok (.arr [])

/-- Provider whose response always parses to the singleton array
`[null]`. -/
def singletonNullProvider : String → Nat → Except String Json :=
  fun _ _ => .ok (.arr [Json.null])

/-- App state with a generation request in flight. -/
def sampleBusyState : AppState :=
  { quizConfig := none, questions := [], userAnswers := [], incorrectAnswers := [],
    quizState := .loading, error := none, showHistory := false, isSubmitting := true }

/-- App state with no generation request in flight. -/
def sampleIdleState : AppState :=
  { quizConfig := none, questions := [], userAnswers := [], incorrectAnswers := [],
    quizState := .idle, error := none, showHistory := false, isSubmitting := false }

/-! Helper lemmas. -/

/-- Every string contains itself. -/
theorem strContains_self (s : String) : strContains s s :=
  ⟨"", "", by simp⟩

/-- Containment is preserved by appending on the right. -/
theorem strContains_append_left {s n : String} (t : String) (h : strContains s n) :
    strContains (s ++ t) n := by
  obtain ⟨b, a, hba⟩ := h
  exact ⟨b, a ++ t, by rw [← hba]; simp [String.append_assoc]⟩

/-- Containment is preserved by appending on the left. -/
theorem strContains_append_right {t n : String} (s : String) (h : strContains t n) :
    strContains (s ++ t) n := by
  obtain ⟨b, a, hba⟩ := h
  exact ⟨s ++ b, a, by rw [← hba]; simp [String.append_assoc]⟩

/-- Containment is transitive. -/
theorem strContains_trans {s t u : String} (h1 : strContains s t) (h2 : strContains t u) :
    strContains s u := by
  obtain ⟨b1, a1, hba1⟩ := h1
  obtain ⟨b2, a2, hba2⟩ := h2
  exact ⟨b1 ++ b2, a2 ++ a1, by rw [← hba1, ← hba2]; simp [String.append_assoc]⟩

/-- A member of a joined list is contained in the joined string. -/
theorem strContains_joinStrings (sep : String) {l : List String} {s : String} (h : s ∈ l) :
    strContains (joinStrings sep l) s := by
  induction l with
  | nil => cases h
  | cons x rest ih =>
    cases rest with
    | nil =>
      rw [List.mem_singleton] at h
      subst h
      exact strContains_self s
    | cons y ys =>
      rcases List.mem_cons.mp h with h | h
      · subst h
        show strContains (s ++ sep ++ joinStrings sep (y :: ys)) s
        exact strContains_append_left _ (strContains_append_left _ (strContains_self s))
      · show strContains (x ++ sep ++ joinStrings sep (y :: ys)) s
        rw [String.append_assoc]
        exact strContains_append_right _ (strContains_append_right _ (ih h))

/-- The rendered mistake line contains the option text the user chose. -/
theorem strContains_mistakeLine_user (a : IncorrectAnswer) :
    strContains (mistakeLine a) (a.options.getD a.userAnswerIndex "undefined") := by
  unfold mistakeLine
  apply strContains_append_left
  apply strContains_append_left
  apply strContains_append_left
  exact strContains_append_right _ (strContains_self _)

/-- The rendered mistake line contains the correct option text. -/
theorem strContains_mistakeLine_correct (a : IncorrectAnswer) :
    strContains (mistakeLine a) (a.options.getD a.correctAnswerIndex "undefined") := by
  unfold mistakeLine
  apply strContains_append_left
  exact strContains_append_right _ (strContains_self _)

/-- Characterization of `specMatchCount` on an empty answer list. -/
theorem specMatchCount_nil (questions : List Question) : specMatchCount questions [] = 0 := by
  cases questions <;> rfl

/-- The score loop counts exactly the positions where the recorded
answer equals the question's correct index, offset by the accumulator. -/
theorem quizScoreGo_eq (questions : List Question) (answers : List (Option Nat)) :
    ∀ index acc : Nat,
      quizScoreGo questions index answers acc =
        acc + specMatchCount (questions.drop index) answers := by
  induction answers with
  | nil =>
    intro index acc
    simp [quizScoreGo, specMatchCount_nil]
  | cons a rest ih =>
    intro index acc
    rw [quizScoreGo, ih]
    cases hq : questions[index]? with
    | none =>
      have hlen : questions.length ≤ index := by
        simpa using List.getElem?_eq_none_iff.mp hq
      rw [List.drop_eq_nil_of_le hlen, List.drop_eq_nil_of_le (by omega)]
      simp [specMatchCount]
    | some q =>
      have hlt : index < questions.length := by
        by_contra hge
        rw [List.getElem?_eq_none_iff.mpr (by omega)] at hq
        cases hq
      have hget : questions[index] = q := by
        have h2 := List.getElem?_eq_getElem hlt
        rw [hq] at h2
        exact (Option.some.inj h2).symm
      have hdrop : questions.drop index = q :: questions.drop (index + 1) := by
        have h1 := List.getElem_cons_drop questions index hlt
        rw [← h1, hget]
      rw [hdrop]
      simp only [specMatchCount]
      by_cases ha : a = some q.correctAnswerIndex <;> simp [ha] <;> omega

/-- The score equals the spec-side match count. -/
theorem quizScore_eq_specMatchCount (questions : List Question) (answers : List (Option Nat)) :
    quizScore questions answers = specMatchCount questions answers := by
  simpa [quizScore] using quizScoreGo_eq questions answers 0 0

/-! Claim theorems. -/

/-- C1: for every operation that on every invocation throws an error
whose lower-cased message is classified transient, `withRetry` with
`maxRetries = 3` invokes the operation exactly 3 times, computes a
delay of `1000 * 2 ^ (attempt - 1)` milliseconds between consecutive
attempts (1000 ms after the first failure, 2000 ms after the second),
and finally raises the fixed user-facing unavailability error. -/
theorem withRetry_allTransient_exhausts {α : Type} (apiCall : Nat → Except String α)
    (h : ∀ i, ∃ m, apiCall i = .error m ∧ isTransientError (lowercase m) = true) :
    withRetry apiCall 3 =
      { result := .error unavailableMessage, calls := 3, delays := [1000, 2000] } := by
  obtain ⟨m0, e0, t0⟩ := h 0
  obtain ⟨m1, e1, t1⟩ := h 1
  obtain ⟨m2, e2, t2⟩ := h 2
  simp [withRetry, withRetryFrom, e0, e1, e2, t0, t1, t2]

/-- Concrete instantiation of `withRetry_allTransient_exhausts`: the
operation always fails with the transient-classified message
"network error". -/
theorem withRetry_allTransient_exhausts_witness :
    withRetry (fun _ : Nat => (Except.error "network error" : Except String Nat)) 3 =
      { result := .error unavailableMessage, calls := 3, delays := [1000, 2000] } :=
  withRetry_allTransient_exhausts _ (fun _ => ⟨"network error", rfl, by decide⟩)

/-- C2: for every operation whose first invocation throws an error not
classified as transient, `withRetry` raises immediately after exactly
one call, with no backoff delay and no retry regardless of the attempts
remaining, and the raised error is the wrapped message carrying the
original error's text. -/
theorem withRetry_nonTransient_immediate {α : Type} (apiCall : Nat → Except String α)
    (maxRetries : Nat) (m : String) (h0 : apiCall 0 = .error m)
    (hnt : isTransientError (lowercase m) = false) :
    withRetry apiCall maxRetries =
      { result := .error (wrapUnexpected m), calls := 1, delays := [] } := by
  simp [withRetry, withRetryFrom, h0, hnt]

/-- Concrete instantiation of `withRetry_nonTransient_immediate` at the
non-transient message "quota exceeded" with 5 attempts remaining. -/
theorem withRetry_nonTransient_immediate_witness :
    withRetry (fun _ : Nat => (Except.error "quota exceeded" : Except String Nat)) 5 =
      { result := .error (wrapUnexpected "quota exceeded"), calls := 1, delays := [] } :=
  withRetry_nonTransient_immediate _ 5 "quota exceeded" rfl (by decide)

/-- C3: given that the resilient invocation succeeds with a parsed
response `j`, `generateQuiz` raises the format error
"AI returned an invalid quiz format." exactly when `j` is not an array
or is an empty array, makes no provider calls beyond those of the
single resilient invocation, and otherwise returns the parsed non-empty
sequence of questions. -/
theorem generateQuiz_format (apiCall : String → Nat → Except String Json)
    (config : QuizConfig) (incorrectAnswers : Option (List IncorrectAnswer)) (j : Json)
    (h : (withRetry (apiCall (generateQuizPrompt config incorrectAnswers)) 3).result = .ok j) :
    (generateQuiz apiCall config incorrectAnswers).calls =
        (withRetry (apiCall (generateQuizPrompt config incorrectAnswers)) 3).calls ∧
    ((generateQuiz apiCall config incorrectAnswers).result = .error invalidQuizFormatMessage ↔
        ∀ xs, j = .arr xs → xs = []) ∧
    ∀ xs, j = .arr xs → xs ≠ [] →
      (generateQuiz apiCall config incorrectAnswers).result = .ok xs := by
  cases j with
  | arr xs =>
    by_cases hxs : xs = []
    · subst hxs
      simp [generateQuiz, h]
    · simp [generateQuiz, h, hxs, List.length_eq_zero]
  | null => simp [generateQuiz, h]
  | bool b => simp [generateQuiz, h]
  | num n => simp [generateQuiz, h]
  | str s => simp [generateQuiz, h]
  | obj fields => simp [generateQuiz, h]

/-- Concrete instantiation of `generateQuiz_format`: a provider response
parsing to an empty array produces the format error and no provider
call beyond the resilient invocation. -/
theorem generateQuiz_format_witness :
    (generateQuiz emptyArrProvider sampleConfig none).result =
        .error invalidQuizFormatMessage ∧
    (generateQuiz emptyArrProvider sampleConfig none).calls =
      (withRetry (emptyArrProvider (generateQuizPrompt sampleConfig none)) 3).calls := by
  have h : (withRetry (emptyArrProvider (generateQuizPrompt sampleConfig none)) 3).result =
      .ok (.arr []) := by
    simp [withRetry, withRetryFrom, emptyArrProvider]
  have main := generateQuiz_format emptyArrProvider sampleConfig none (.arr []) h
  refine ⟨main.2.1.mpr ?_, main.1⟩
  intro xs hxs
  injection hxs with hx
  exact hx.symm

/-- C6 counterexample: a provider response that parses to a non-empty
array whose single element violates the Question invariant (two
options, `correctAnswerIndex = 7`) is returned as-is by a successful
`generateQuiz` call, so the returned sequence is not validated against
the invariant. -/
theorem generateQuiz_no_question_validation :
    (generateQuiz badProvider sampleConfig none).result = .ok [badQuestionJson] ∧
    questionInvariantHolds badQuestionJson = false := by
  constructor
  · simp [generateQuiz, withRetry, withRetryFrom, badProvider]
  · decide

/-- C6 amended: `generateQuiz` validates only that the parsed response
is a non-empty array; a successful call returns exactly the array the
resilient invocation's response parsed to, non-empty but with its
elements unchecked against the Question invariant. -/
theorem generateQuiz_validates_only_nonempty_array
    (apiCall : String → Nat → Except String Json) (config : QuizConfig)
    (incorrectAnswers : Option (List IncorrectAnswer)) (quizData : List Json)
    (h : (generateQuiz apiCall config incorrectAnswers).result = .ok quizData) :
    quizData ≠ [] ∧
    (withRetry (apiCall (generateQuizPrompt config incorrectAnswers)) 3).result =
      .ok (.arr quizData) := by
  cases hr : (withRetry (apiCall (generateQuizPrompt config incorrectAnswers)) 3).result with
  | error e =>
    simp [generateQuiz, hr] at h
  | ok response =>
    cases response with
    | arr xs =>
      by_cases hz : xs.length = 0
      · simp [generateQuiz, hr, hz] at h
      · simp [generateQuiz, hr, hz] at h
        subst h
        exact ⟨fun hnil => hz (by rw [hnil]; rfl), rfl⟩
    | null => simp [generateQuiz, hr] at h
    | bool b => simp [generateQuiz, hr] at h
    | num n => simp [generateQuiz, hr] at h
    | str s => simp [generateQuiz, hr] at h
    | obj fields => simp [generateQuiz, hr] at h

/-- Concrete instantiation of
`generateQuiz_validates_only_nonempty_array`: a successful call through
a provider returning `[null]` yields that non-empty array, whose
element the parsed response carried unvalidated. -/
theorem generateQuiz_validates_only_nonempty_array_witness :
    ([Json.null] ≠ []) ∧
    (withRetry (singletonNullProvider (generateQuizPrompt sampleConfig none)) 3).result =
      .ok (.arr [Json.null]) :=
  generateQuiz_validates_only_nonempty_array singletonNullProvider sampleConfig none
    [Json.null] (by simp [generateQuiz, withRetry, withRetryFrom, singletonNullProvider])

/-- C4: for every configuration, the built quiz prompt requests a
20-question quiz and contains the literal exam, subject and level token
strings; and whenever the topic is not the sentinel
"Foundational Concepts", it also contains the literal topic string. -/
theorem generateQuizPrompt_contains_tokens (config : QuizConfig)
    (incorrectAnswers : Option (List IncorrectAnswer)) :
    strContains (generateQuizPrompt config incorrectAnswers)
      "Generate a 20-question multiple-choice quiz" ∧
    strContains (generateQuizPrompt config incorrectAnswers) config.exam ∧
    strContains (generateQuizPrompt config incorrectAnswers) config.subject ∧
    strContains (generateQuizPrompt config incorrectAnswers) config.level ∧
    (config.topic ≠ "Foundational Concepts" →
      strContains (generateQuizPrompt config incorrectAnswers) config.topic) := by
  unfold generateQuizPrompt
  refine ⟨?_, ?_, ?_, ?_, ?_⟩
  · apply strContains_append_left
    apply strContains_append_left
    apply strContains_append_left
    apply strContains_append_left
    apply strContains_append_left
    unfold quizPromptBase
    apply strContains_append_left
    apply strContains_append_left
    apply strContains_append_left
    apply strContains_append_left
    exact ⟨"", " for a student preparing for the ", rfl⟩
  · apply strContains_append_left
    apply strContains_append_left
    apply strContains_append_left
    apply strContains_append_left
    apply strContains_append_left
    unfold quizPromptBase
    apply strContains_append_left
    apply strContains_append_left
    apply strContains_append_left
    exact strContains_append_right _ (strContains_self _)
  · apply strContains_append_left
    apply strContains_append_left
    apply strContains_append_left
    apply strContains_append_left
    apply strContains_append_left
    unfold quizPromptBase
    apply strContains_append_left
    exact strContains_append_right _ (strContains_self _)
  · apply strContains_append_left
    apply strContains_append_left
    apply strContains_append_left
    apply strContains_append_right
    unfold quizPromptLevelSegment
    apply strContains_append_left
    exact strContains_append_right _ (strContains_self _)
  · intro htopic
    apply strContains_append_left
    apply strContains_append_left
    apply strContains_append_left
    apply strContains_append_left
    apply strContains_append_right
    unfold quizPromptTopicSegment
    rw [if_neg htopic]
    apply strContains_append_left
    exact strContains_append_right _ (strContains_self _)

/-- Concrete instantiation of `generateQuizPrompt_contains_tokens` at
`sampleConfig`, whose topic "Kinematics" is not the sentinel. -/
theorem generateQuizPrompt_contains_tokens_witness :
    strContains (generateQuizPrompt sampleConfig none)
      "Generate a 20-question multiple-choice quiz" ∧
    strContains (generateQuizPrompt sampleConfig none) "JEE" ∧
    strContains (generateQuizPrompt sampleConfig none) "Physics" ∧
    strContains (generateQuizPrompt sampleConfig none) "Level 3: Boards" ∧
    strContains (generateQuizPrompt sampleConfig none) "Kinematics" := by
  have main := generateQuizPrompt_contains_tokens sampleConfig none
  exact ⟨main.1, main.2.1, main.2.2.1, main.2.2.2.1, main.2.2.2.2 (by decide)⟩

/-- C10: building the quiz prompt with an empty incorrect-answer list
yields exactly the prompt built with the argument absent: the mistake
block is appended only when the supplied list is non-empty. -/
theorem generateQuizPrompt_empty_mistakes (config : QuizConfig) :
    generateQuizPrompt config (some []) = generateQuizPrompt config none := by
  simp [generateQuizPrompt, quizPromptMistakeSegment]

/-- A string of length zero is the empty string. -/
theorem string_eq_empty_of_length (s : String) (h : s.length = 0) : s = "" := by
  cases s with
  | mk data =>
    have hdata : data = [] := List.length_eq_zero.mp h
    rw [hdata]

/-- C5: for every configuration and non-empty mistake list whose answer
indices are in range, the retry quiz prompt contains, for each mistake,
both the option text the user chose and the correct option text, and it
consists of the mistake block appended after the prompt built without
mistakes, so the two prompts differ. -/
theorem generateQuizPrompt_retry_mistakes (config : QuizConfig)
    (answers : List IncorrectAnswer) (hne : answers ≠ [])
    (hbound : ∀ a ∈ answers, a.userAnswerIndex < a.options.length ∧
        a.correctAnswerIndex < a.options.length) :
    (∀ a ∈ answers,
        strContains (generateQuizPrompt config (some answers))
          (a.options.getD a.userAnswerIndex "undefined") ∧
        strContains (generateQuizPrompt config (some answers))
          (a.options.getD a.correctAnswerIndex "undefined")) ∧
    (∃ t, generateQuizPrompt config (some answers) =
        generateQuizPrompt config none ++ t ∧ t ≠ "") ∧
    generateQuizPrompt config (some answers) ≠ generateQuizPrompt config none := by
  have hlen : 0 < answers.length := List.length_pos.mpr hne
  have hseg : quizPromptMistakeSegment (some answers) =
      "\nI previously took a quiz on this topic and made these mistakes:\n\n" ++
        joinStrings "\n" (answers.map mistakeLine) ++
        "\n\nPlease generate a new, different quiz that specifically targets the concepts I'm struggling with based on these mistakes. The questions should be related but not identical." := by
    simp only [quizPromptMistakeSegment]
    rw [if_pos hlen]
  have hsegne : quizPromptMistakeSegment (some answers) ≠ "" := by
    rw [hseg]
    intro habs
    have hcong := congrArg String.length habs
    rw [String.length_append, String.length_append] at hcong
    have hintro :
        0 < ("\nI previously took a quiz on this topic and made these mistakes:\n\n").length := by
      decide
    simp at hcong
    omega
  have hB : ∃ t, generateQuizPrompt config (some answers) =
      generateQuizPrompt config none ++ t ∧ t ≠ "" := by
    refine ⟨quizPromptMistakeSegment (some answers), ?_, hsegne⟩
    show generateQuizPrompt config (some answers) =
      quizPromptBase config ++ quizPromptTopicSegment config ++ quizPromptLevelSegment config ++
        quizPromptMergeSegment config ++ quizPromptInstructionBlock ++
        quizPromptMistakeSegment none ++ quizPromptMistakeSegment (some answers)
    unfold generateQuizPrompt quizPromptMistakeSegment
    simp
  refine ⟨?_, hB, ?_⟩
  · intro a ha
    have hmem : mistakeLine a ∈ answers.map mistakeLine := List.mem_map_of_mem mistakeLine ha
    constructor
    · unfold generateQuizPrompt
      apply strContains_append_right
      rw [hseg]
      apply strContains_append_left
      apply strContains_append_right
      exact strContains_trans (strContains_joinStrings "\n" hmem)
        (strContains_mistakeLine_user a)
    · unfold generateQuizPrompt
      apply strContains_append_right
      rw [hseg]
      apply strContains_append_left
      apply strContains_append_right
      exact strContains_trans (strContains_joinStrings "\n" hmem)
        (strContains_mistakeLine_correct a)
  · obtain ⟨t, ht, htne⟩ := hB
    intro heq
    rw [heq] at ht
    have hcong := congrArg String.length ht
    rw [String.length_append] at hcong
    have h0 : t.length = 0 := by omega
    exact htne (string_eq_empty_of_length t h0)

/-- Concrete instantiation of `generateQuizPrompt_retry_mistakes` at a
single mistake whose chosen option is "joule" and whose correct option
is "newton". -/
theorem generateQuizPrompt_retry_mistakes_witness :
    strContains (generateQuizPrompt sampleConfig (some [sampleMistake])) "joule" ∧
    strContains (generateQuizPrompt sampleConfig (some [sampleMistake])) "newton" ∧
    generateQuizPrompt sampleConfig (some [sampleMistake]) ≠
      generateQuizPrompt sampleConfig none := by
  have main := generateQuizPrompt_retry_mistakes sampleConfig [sampleMistake]
    (by simp)
    (by
      intro a ha
      rw [List.mem_singleton] at ha
      subst ha
      exact ⟨by decide, by decide⟩)
  have h1 := main.1 sampleMistake (List.mem_singleton_self _)
  exact ⟨h1.1, h1.2, main.2.2⟩

/-- C7: at quiz completion, for a question set of length N and an
answer array in which the recorded answer equals the question's
`correctAnswerIndex` at exactly `matches` positions, the computed score
equals `matches` and the recorded history percentage equals
`round(100 * matches / N)`. -/
theorem handleQuizCompletion_score_percentage (questions : List Question)
    (answers : List (Option Nat)) (config : QuizConfig) (now k : Nat)
    (hlen : answers.length = questions.length) (hpos : 0 < questions.length)
    (hk : k = specMatchCount questions answers) :
    (handleQuizCompletion questions (some config) now answers).score = k ∧
    ∃ item, (handleQuizCompletion questions (some config) now answers).historyItem =
        some item ∧
      item.percentage = jsRound (100 * (k : ℚ) / (questions.length : ℚ)) := by
  have hscore : quizScore questions answers = k := by
    rw [quizScore_eq_specMatchCount, hk]
  refine ⟨hscore, ?_⟩
  refine ⟨_, rfl, ?_⟩
  show jsRound ((quizScore questions answers : ℚ) / (questions.length : ℚ) * 100) =
    jsRound (100 * (k : ℚ) / (questions.length : ℚ))
  rw [hscore]
  congr 1
  ring

/-- Concrete instantiation of `handleQuizCompletion_score_percentage`:
one question answered correctly gives score 1 and percentage 100. -/
theorem handleQuizCompletion_score_percentage_witness :
    (handleQuizCompletion [sampleQuestion] (some sampleConfig) 0 [some 1]).score = 1 ∧
    ((handleQuizCompletion [sampleQuestion] (some sampleConfig) 0 [some 1]).historyItem.map
      QuizHistoryItem.percentage) = some 100 := by
  have main := handleQuizCompletion_score_percentage [sampleQuestion] [some 1] sampleConfig
    0 1 rfl (by norm_num) (by decide)
  obtain ⟨h1, item, h2, h3⟩ := main
  refine ⟨h1, ?_⟩
  rw [h2]
  simp only [Option.map_some']
  rw [h3]
  norm_num [jsRound]

/-- C8: at the active-to-finished transition, the incorrect-answer list
contains exactly those questions for which the recorded answer is
non-null and differs from `correctAnswerIndex`, each carrying the
user's chosen index as `userAnswerIndex`; questions whose answer is
null are never included. -/
theorem completion_incorrect_partition (questions : List Question)
    (answers : List (Option Nat)) (config : Option QuizConfig) (now : Nat)
    (hlen : answers.length = questions.length) :
    (∀ x ∈ (handleQuizCompletion questions config now answers).incorrectAnswers,
        ∃ i, ∃ hi : i < questions.length,
          x.toQuestion = questions[i] ∧
          answers.getD i none = some x.userAnswerIndex ∧
          x.userAnswerIndex ≠ x.toQuestion.correctAnswerIndex) ∧
    (∀ i : Nat, ∀ hi : i < questions.length, ∀ ua : Nat,
        answers.getD i none = some ua →
        ua ≠ questions[i].correctAnswerIndex →
        ({ toQuestion := questions[i], userAnswerIndex := ua } : IncorrectAnswer) ∈
          (handleQuizCompletion questions config now answers).incorrectAnswers) := by
  constructor
  · intro x hx
    have hx2 : x ∈ computeIncorrect questions answers := hx
    unfold computeIncorrect at hx2
    rw [List.mem_map] at hx2
    obtain ⟨⟨i, q⟩, hp, hfx⟩ := hx2
    rw [List.mem_filter] at hp
    obtain ⟨henum, hpred⟩ := hp
    rw [List.mk_mem_enum_iff_getElem?] at henum
    have hi : i < questions.length := by
      by_contra hge
      rw [List.getElem?_eq_none_iff.mpr (by omega)] at henum
      cases henum
    have hq : questions[i] = q := by
      have h2 := List.getElem?_eq_getElem hi
      rw [henum] at h2
      exact (Option.some.inj h2).symm
    simp only [decide_eq_true_eq] at hpred
    obtain ⟨hnn, hne⟩ := hpred
    obtain ⟨ua, hua⟩ := Option.ne_none_iff_exists'.mp hnn
    subst hfx
    refine ⟨i, hi, hq.symm, ?_, ?_⟩
    · rw [hua]
      rfl
    · show (answers.getD i none).getD 0 ≠ q.correctAnswerIndex
      rw [hua] at hne ⊢
      simp only [Option.getD_some]
      intro habs
      exact hne (by rw [habs])
  · intro i hi ua hua hne
    show _ ∈ computeIncorrect questions answers
    unfold computeIncorrect
    rw [List.mem_map]
    refine ⟨(i, questions[i]), ?_, ?_⟩
    · rw [List.mem_filter]
      refine ⟨?_, ?_⟩
      · rw [List.mk_mem_enum_iff_getElem?]
        exact List.getElem?_eq_getElem hi
      · simp only [decide_eq_true_eq, hua]
        exact ⟨by simp, by simp [hne]⟩
    · simp only [hua, Option.getD_some]

/-- Concrete instantiation of `completion_incorrect_partition`: the
mistake record for a question answered wrongly (option 0, correct
option 1) appears in the incorrect-answer list. -/
theorem completion_incorrect_partition_witness :
    sampleMistake ∈
      (handleQuizCompletion [sampleQuestion] (some sampleConfig) 0
        [some 0]).incorrectAnswers :=
  (completion_incorrect_partition [sampleQuestion] [some 0] (some sampleConfig) 0 rfl).2
    0 (by norm_num) 0 rfl (by decide)

/-- C9: while a generation request is in flight (the in-flight flag is
set), any further start-quiz request is silently dropped: it returns
without issuing a generation call and without modifying the session
state; and a request that does start a generation leaves the flag set,
so a subsequent start request is dropped — at most one generation call
is in flight at any time. -/
theorem startQuiz_drops_concurrent (s : AppState) (config1 config2 : QuizConfig) :
    (s.isSubmitting = true → startQuizBegin s config1 = (s, false)) ∧
    ((startQuizBegin s config1).2 = true →
      startQuizBegin (startQuizBegin s config1).1 config2 =
        ((startQuizBegin s config1).1, false)) := by
  constructor
  · intro hsub
    simp [startQuizBegin, hsub]
  · intro hcall
    by_cases hsub : s.isSubmitting
    · simp [startQuizBegin, hsub] at hcall
    · simp [startQuizBegin, hsub]

/-- Concrete instantiation of `startQuiz_drops_concurrent`: a start
request against a busy state is dropped, and after a start request
against an idle state a second request is dropped. -/
theorem startQuiz_drops_concurrent_witness :
    startQuizBegin sampleBusyState sampleConfig = (sampleBusyState, false) ∧
    startQuizBegin (startQuizBegin sampleIdleState sampleConfig).1 sampleConfig =
      ((startQuizBegin sampleIdleState sampleConfig).1, false) :=
  ⟨(startQuiz_drops_concurrent sampleBusyState sampleConfig sampleConfig).1 rfl,
   (startQuiz_drops_concurrent sampleIdleState sampleConfig sampleConfig).2 rfl⟩
